import Mathlib

/-!
Shallow embedding of the rustic-insights metrics-ingestion gateway core:
the validator (src/api/models.rs), the metrics registry (src/metrics/registry.rs)
and the batch collector (src/metrics/collector.rs), together with the parts of
the third-party `prometheus` crate those files call into (CounterVec / GaugeVec /
HistogramVec construction and `Registry::register`), modelled by their documented
behaviour.  Rust `HashMap<String, _>` values are modelled as association lists in
which the first binding for a key wins; Rust `f64` measurement values are
modelled as `Rat`, since no verified property depends on floating-point
rounding; Rust strings are modelled as `String`, with character-level operations
on `String.data` (mirroring `str::chars()`).  A Rust panic (the
`with_label_values` cardinality unwrap) aborts the whole call, so the
operations that can reach one return a `RunOutcome` that is either the
computed value or the panic together with the registry state at the abort.
-/

namespace RI

/-- Association-list lookup, modelling `HashMap::get`: the first binding for the
key wins. -/
def alookup [BEq κ] : List (κ × α) → κ → Option α
  | [], _ => none
  | (k, v) :: rest, key => if k == key then some v else alookup rest key

/-- Association-list insert, modelling `HashMap::insert`: replaces the value of
an existing binding in place, otherwise appends a new binding. -/
def ainsert [BEq κ] : List (κ × α) → κ → α → List (κ × α)
  | [], key, v => [(key, v)]
  | (k, w) :: rest, key, v =>
    if k == key then (k, v) :: rest else (k, w) :: ainsert rest key v

/-- Keys of an association list, modelling `HashMap::keys` (up to order). -/
def keysOf (l : List (κ × α)) : List κ := l.map Prod.fst

/-- Lexicographic order on character lists by code point; agrees with Rust's
`Ord` for `String` (UTF-8 byte order coincides with code-point order). -/
def charsLe : List Char → List Char → Bool
  | [], _ => true
  | _ :: _, [] => false
  | c :: cs, d :: ds =>
    if c.toNat < d.toNat then true
    else if d.toNat < c.toNat then false
    else charsLe cs ds

/-- String order used by `Vec::sort` / `sort_by(cmp)` in the source. -/
def strLeB (a b : String) : Bool := charsLe a.data b.data

/-- Stable insertion of an element into a list sorted by `le`; the new element
goes after existing elements that compare `le` to it. -/
def insertLe (le : α → α → Bool) (a : α) : List α → List α
  | [] => [a]
  | b :: rest => if le b a then b :: insertLe le a rest else a :: b :: rest

/-- Stable sort by `le`, modelling Rust's (stable) `sort` / `sort_by`. -/
def sortLe (le : α → α → Bool) (l : List α) : List α :=
  l.foldr (insertLe le) []

/-- Two leading underscores, modelling `s.starts_with("__")` (reserved
prometheus label names). -/
def startsWithTwoUnderscores (s : String) : Bool :=
  match s.data with
  | '_' :: '_' :: _ => true
  | _ => false

/-- Metric type tags from src/metrics/types.rs. -/
inductive MetricType
  | counter
  | gauge
  | histogram
  | summary
deriving DecidableEq, Repr

/-- A measurement value, from src/metrics/types.rs (`value: f64` modelled as
`Rat`, `timestamp: Option<i64>` as `Option Int`). -/
structure MetricValue where
  value : Rat
  timestamp : Option Int
deriving DecidableEq, Repr

/-- One incoming measurement, from src/metrics/types.rs. -/
structure Metric where
  name : String
  metric_type : MetricType
  help : String
  labels : List (String × String)
  value : MetricValue
deriving DecidableEq, Repr

/-- A batch of measurements, from src/metrics/types.rs. -/
structure MetricsBatch where
  metrics : List Metric
  source : String
deriving DecidableEq, Repr

/-- The batch-processing response, from src/metrics/types.rs. -/
structure MetricsResponse where
  processed : Nat
  status : String
  errors : List String
deriving DecidableEq, Repr

/-- `MetricsResponse::default()` from src/metrics/types.rs. -/
def MetricsResponse.defaultResponse : MetricsResponse :=
  { processed := 0, status := "success", errors := [] }

/-- The error enum from src/errors.rs, restricted to the constructors the
embedded core can produce. -/
inductive ServerError
  | validationError (msg : String)
  | metricsProcessingError (msg : String)
  | metricRegistrationError (msg : String)
deriving DecidableEq, Repr

/-- `Display` for `ServerError` as generated by `thiserror` in src/errors.rs. -/
def ServerError.toString : ServerError → String
  | .validationError m => "Invalid input: " ++ m
  | .metricsProcessingError m => "Failed to process metrics: " ++ m
  | .metricRegistrationError m => "Failed to register metric: " ++ m

/-- Models Rust's `char::is_alphanumeric` (Unicode Alphabetic or Nd/Nl/No) for
code points below 0x100: ASCII alphanumerics plus the Latin-1 letters and
numeric signs.  Above 0xFF the model returns `false`; theorems that depend on
this predicate therefore restrict names to code points below 0x100, where the
model is exact. -/
def rustIsAlphanumeric (c : Char) : Bool :=
  c.isAlphanum ||
  (let n := c.toNat
   n == 0xAA || n == 0xB5 || n == 0xBA ||
   n == 0xB2 || n == 0xB3 || n == 0xB9 ||
   n == 0xBC || n == 0xBD || n == 0xBE ||
   (0xC0 ≤ n && n ≤ 0xFF && n != 0xD7 && n != 0xF7))

/-- The per-character metric-name test of `Validate for Metric`
(src/api/models.rs): alphanumeric, underscore or colon. -/
def nameCharOk (c : Char) : Bool :=
  rustIsAlphanumeric c || c == '_' || c == ':'

/-- The per-character label-key test of `Validate for Metric`
(src/api/models.rs): alphanumeric or underscore. -/
def labelCharOk (c : Char) : Bool :=
  rustIsAlphanumeric c || c == '_'

/-- The label loop of `Validate for Metric` (src/api/models.rs): empty keys,
ill-formed keys, and the reserved keys `le` and `quantile` are rejected. -/
def validateLabels : List (String × String) → Except ServerError Unit
  | [] => .ok ()
  | (key, _) :: rest =>
    if key == "" then
      .error (.validationError "Label name cannot be empty")
    else if !(key.data.all labelCharOk) then
      .error (.validationError
        "Label names must contain only alphanumeric characters and underscores")
    else if key == "le" || key == "quantile" then
      .error (.validationError ("\x27" ++ key ++ "\x27 is a reserved label name"))
    else
      validateLabels rest

/-- `Validate for Metric` (src/api/models.rs): name non-empty and well-formed,
help non-empty, labels well-formed and unreserved. -/
def Metric.validate (m : Metric) : Except ServerError Unit :=
  if m.name == "" then
    .error (.validationError "Metric name cannot be empty")
  else if !(m.name.data.all nameCharOk) then
    .error (.validationError
      "Metric name must contain only alphanumeric characters, underscores, and colons")
  else if m.help == "" then
    .error (.validationError "Help text cannot be empty")
  else
    validateLabels m.labels

/-- Label pairs sorted by key (`label_pairs.sort_by(|a, b| a.0.cmp(b.0))` in
`Validate for MetricsBatch`, src/api/models.rs). -/
def sortedLabelPairs (labels : List (String × String)) : List (String × String) :=
  sortLe (fun a b => strLeB a.1 b.1) labels

/-- The canonical duplicate-detection key of `Validate for MetricsBatch`
(src/api/models.rs): the metric name, a colon, then `key=value,` for each label
pair in key-sorted order. -/
def canonicalKey (m : Metric) : String :=
  (sortedLabelPairs m.labels).foldl
    (fun acc kv => acc ++ kv.1 ++ "=" ++ kv.2 ++ ",") (m.name ++ ":")

/-- The duplicate-detection loop of `Validate for MetricsBatch`
(src/api/models.rs), with `seen` the set of canonical keys already visited. -/
def dupScan : List String → List Metric → Except ServerError Unit
  | _, [] => .ok ()
  | seen, m :: rest =>
    let key := canonicalKey m
    if seen.contains key then
      .error (.validationError
        ("Duplicate metric found: " ++ m.name ++ " with the same set of labels"))
    else
      dupScan (key :: seen) rest

/-- The per-item loop of `Validate for MetricsBatch` (src/api/models.rs). -/
def validateEach : List Metric → Except ServerError Unit
  | [] => .ok ()
  | m :: rest =>
    match m.validate with
    | .error e => .error e
    | .ok _ => validateEach rest

/-- `Validate for MetricsBatch` (src/api/models.rs): source non-empty, batch
non-empty, every measurement valid, no duplicate canonical keys. -/
def MetricsBatch.validate (b : MetricsBatch) : Except ServerError Unit :=
  if b.source == "" then
    .error (.validationError "Source cannot be empty")
  else if b.metrics.isEmpty then
    .error (.validationError "Batch must contain at least one metric")
  else
    match validateEach b.metrics with
    | .error e => .error e
    | .ok _ => dupScan [] b.metrics

/-- Models the `prometheus` crate's metric-name check used by `Desc::new`
(via `Opts`): `[a-zA-Z_:][a-zA-Z0-9_:]*`. -/
def promValidMetricName (s : String) : Bool :=
  match s.data with
  | [] => false
  | c :: rest =>
    (c.isAlpha || c == '_' || c == ':') &&
    rest.all (fun d => d.isAlphanum || d == '_' || d == ':')

/-- Models the `prometheus` crate's label-name check used by `Desc::new`:
`[a-zA-Z_][a-zA-Z0-9_]*`. -/
def promValidLabelName (s : String) : Bool :=
  match s.data with
  | [] => false
  | c :: rest =>
    (c.isAlpha || c == '_') &&
    rest.all (fun d => d.isAlphanum || d == '_')

/-- Models `prometheus::core::Desc::new` as called by `CounterVec::new`,
`GaugeVec::new` and `HistogramVec::new`: rejects an empty help string, an
invalid fully-qualified name, invalid or `__`-reserved label names, and
duplicate label names.  Only the fact of failure matters downstream, never the
particular message, so the messages are abbreviated forms of the crate's. -/
def checkDesc (fqName help : String) (labelNames : List String) : Except ServerError Unit :=
  if help == "" then
    .error (.metricRegistrationError "empty help string")
  else if !promValidMetricName fqName then
    .error (.metricRegistrationError
      ("\x27" ++ fqName ++ "\x27 is not a valid metric name"))
  else if labelNames.any
      (fun l => !promValidLabelName l || startsWithTwoUnderscores l) then
    .error (.metricRegistrationError "invalid label name")
  else if labelNames.eraseDups.length != labelNames.length then
    .error (.metricRegistrationError "duplicate label names")
  else
    .ok ()

/-- Models `prometheus::CounterVec`: the variable label names fixed at
construction and the per-label-value-vector accumulated values. -/
structure CounterVec where
  labelNames : List String
  data : List (List String × Rat)
deriving DecidableEq, Repr

/-- Models `prometheus::GaugeVec`: label names plus last-set value per
label-value vector. -/
structure GaugeVec where
  labelNames : List String
  data : List (List String × Rat)
deriving DecidableEq, Repr

/-- Per-series histogram state: cumulative per-bucket counts, sum and
observation count, modelling one `prometheus::Histogram` child. -/
structure HistState where
  bucketCounts : List (Rat × Nat)
  sum : Rat
  count : Nat
deriving DecidableEq, Repr

/-- The `prometheus` crate's default bucket ladder used by
`HistogramOpts::new`. -/
def defaultBuckets : List Rat :=
  [5/1000, 1/100, 25/1000, 1/20, 1/10, 1/4, 1/2, 1, 5/2, 5, 10]

/-- A fresh histogram child: zero in every bucket, zero sum and count. -/
def HistState.fresh (buckets : List Rat) : HistState :=
  { bucketCounts := buckets.map (fun b => (b, 0)), sum := 0, count := 0 }

/-- `Histogram::observe`: increment every bucket whose upper bound is at least
the observed value, add to the sum, increment the count. -/
def HistState.observe (h : HistState) (v : Rat) : HistState :=
  { bucketCounts := h.bucketCounts.map
      (fun bc => if v ≤ bc.1 then (bc.1, bc.2 + 1) else bc),
    sum := h.sum + v,
    count := h.count + 1 }

/-- Models `prometheus::HistogramVec`. -/
structure HistogramVec where
  labelNames : List String
  buckets : List Rat
  data : List (List String × HistState)
deriving DecidableEq, Repr

/-- The metrics slice of the configuration (src/config.rs `MetricsConfig`);
the source fields are `prometheus_endpoint`, `metrics_prefix` and
`metrics_namespace`. -/
structure MetricsConfig where
  prometheusEndpoint : String
  metricsPrefixVal : String
  metricsNamespaceVal : String
deriving DecidableEq, Repr

/-- `AppConfig::default().metrics` from src/config.rs. -/
def defaultMetricsConfig : MetricsConfig :=
  { prometheusEndpoint := "/metrics",
    metricsPrefixVal := "app",
    metricsNamespaceVal := "metrics_server" }

/-- The whole mutable state of `MetricsRegistry` (src/metrics/registry.rs):
the inner `prometheus::Registry` (modelled by the fully-qualified names of the
collectors registered with it, in registration order — with no const labels two
collectors with the same fully-qualified name always collide), the three
per-variant instrument maps, the `label_keys` schema map, and the
configuration. -/
structure RegistryState where
  collectorNames : List String
  counters : List (String × CounterVec)
  gauges : List (String × GaugeVec)
  histograms : List (String × HistogramVec)
  label_keys : List (String × List String)
  config : MetricsConfig
deriving DecidableEq, Repr

/-- `MetricsRegistry::new` (src/metrics/registry.rs). -/
def initialState (cfg : MetricsConfig) : RegistryState :=
  { collectorNames := [], counters := [], gauges := [], histograms := [],
    label_keys := [], config := cfg }

/-- Outcome of running embedded code that may hit a Rust panic: either the
computed value, or the panic message together with the registry state at the
moment of the abort (the registry is shared, so it survives the unwinding
request thread). -/
inductive RunOutcome (α : Type) where
  | value (a : α)
  | panicked (msg : String) (state : RegistryState)
deriving DecidableEq, Repr

/-- The qualified-name derivation
`format!("{}_{}_{}", prefix, namespace, name)` used by both
`register_metric` and `update_metric` (src/metrics/registry.rs). -/
def fullName (cfg : MetricsConfig) (name : String) : String :=
  cfg.metricsPrefixVal ++ "_" ++ cfg.metricsNamespaceVal ++ "_" ++ name

/-- The `AlreadyReg` error of `prometheus::Registry::register`, produced when a
collector with an already-registered descriptor id (here: fully-qualified name)
is registered again. -/
def alreadyRegError : ServerError :=
  .metricRegistrationError "duplicate metrics collector registration attempted"

/-- `MetricsRegistry::register_counter` (src/metrics/registry.rs): a no-op if a
counter of that name exists, otherwise `CounterVec::new` followed by
`Registry::register` and insertion into the counters map.  The returned state
is the (possibly mutated) `self`. -/
def registerCounter (st : RegistryState) (name help : String)
    (labelNames : List String) : RegistryState × Except ServerError Unit :=
  if (alookup st.counters name).isSome then (st, .ok ())
  else
    match checkDesc name help labelNames with
    | .error e => (st, .error e)
    | .ok _ =>
      if st.collectorNames.contains name then (st, .error alreadyRegError)
      else
        ({ st with
            collectorNames := st.collectorNames ++ [name],
            counters := (ainsert st.counters name
              ({ labelNames := labelNames, data := [] })) },
         .ok ())

/-- `MetricsRegistry::register_gauge` (src/metrics/registry.rs). -/
def registerGauge (st : RegistryState) (name help : String)
    (labelNames : List String) : RegistryState × Except ServerError Unit :=
  if (alookup st.gauges name).isSome then (st, .ok ())
  else
    match checkDesc name help labelNames with
    | .error e => (st, .error e)
    | .ok _ =>
      if st.collectorNames.contains name then (st, .error alreadyRegError)
      else
        ({ st with
            collectorNames := st.collectorNames ++ [name],
            gauges := (ainsert st.gauges name
              ({ labelNames := labelNames, data := [] })) },
         .ok ())

/-- `MetricsRegistry::register_histogram` (src/metrics/registry.rs), with the
default bucket ladder of `HistogramOpts::new`. -/
def registerHistogram (st : RegistryState) (name help : String)
    (labelNames : List String) : RegistryState × Except ServerError Unit :=
  if (alookup st.histograms name).isSome then (st, .ok ())
  else
    match checkDesc name help labelNames with
    | .error e => (st, .error e)
    | .ok _ =>
      if st.collectorNames.contains name then (st, .error alreadyRegError)
      else
        ({ st with
            collectorNames := st.collectorNames ++ [name],
            histograms := (ainsert st.histograms name
              ({ labelNames := labelNames, buckets := defaultBuckets, data := [] })) },
         .ok ())

/-- The sorted label-key schema computed by `register_metric`
(src/metrics/registry.rs): the label map's (distinct) keys, sorted. -/
def sortedKeys (labels : List (String × String)) : List String :=
  sortLe strLeB (keysOf labels).eraseDups

/-- `MetricsRegistry::register_metric` (src/metrics/registry.rs): derive the
qualified name and sorted key schema, dispatch to the per-variant registration
(summary is always rejected), and on success record the schema in
`label_keys` — unconditionally overwriting any schema already stored for that
name. -/
def registerMetric (st : RegistryState) (m : Metric) :
    RegistryState × Except ServerError Unit :=
  let full := fullName st.config m.name
  let keys := sortedKeys m.labels
  let step : RegistryState × Except ServerError Unit :=
    match m.metric_type with
    | .counter => registerCounter st full m.help keys
    | .gauge => registerGauge st full m.help keys
    | .histogram => registerHistogram st full m.help keys
    | .summary =>
      (st, .error (.metricRegistrationError "Summary metrics are not supported yet"))
  match step with
  | (st1, .ok _) =>
    ({ st1 with label_keys := ainsert st1.label_keys full keys }, .ok ())
  | (st1, .error e) => (st1, .error e)

/-- The label-value vector built by `update_metric` (src/metrics/registry.rs):
one value per schema key, in schema order, the empty string when the incoming
label map has no binding for the key. -/
def buildLabelValues (keys : List String) (labels : List (String × String)) :
    List String :=
  keys.map (fun k => (alookup labels k).getD "")

/-- The `NotRegistered`-class error of `update_metric`: the qualified name has
no recorded label-key schema (src/metrics/registry.rs line 76). -/
def notRegisteredError (full : String) : ServerError :=
  .metricsProcessingError ("Metric \x27" ++ full ++ "\x27 not registered")

/-- The error `update_metric` produces once the schema lookup has succeeded but
the instrument map for the claimed variant has no entry for the name — in
well-formed states exactly the type-mismatch case of the spec — together with
the unconditional rejection of the summary variant. -/
def typeMismatchError (t : MetricType) (full : String) : ServerError :=
  match t with
  | .counter => .metricsProcessingError ("Counter \x27" ++ full ++ "\x27 not registered")
  | .gauge => .metricsProcessingError ("Gauge \x27" ++ full ++ "\x27 not registered")
  | .histogram =>
    .metricsProcessingError ("Histogram \x27" ++ full ++ "\x27 not registered")
  | .summary => .metricsProcessingError "Summary metrics are not supported yet"

/-- The panic raised by the prometheus crate\x27s `with_label_values` (an
unwrapped `InconsistentCardinality` error) when the number of label values
does not match the instrument\x27s variable-label count; the message is
abbreviated relative to the crate\x27s. -/
def inconsistentCardinalityMsg : String :=
  "InconsistentCardinality: unexpected number of label values"

/-- `MetricsRegistry::update_metric` (src/metrics/registry.rs): look up the
fixed schema (else `Metric ... not registered`), build the label-value vector
from it, then fold the value into the claimed variant's instrument —
`inc_by` for counters, `set` for gauges, `observe` for histograms, an error for
summaries — failing when that variant's map has no instrument of the name.
`with_label_values` first checks that the label-value vector\x27s length
matches the instrument\x27s variable-label count and PANICS (an unwrapped
`InconsistentCardinality`) when it does not — before any mutation — and
otherwise creates an absent child (zero counter, zero gauge, fresh histogram)
before applying the operation. -/
def updateMetric (st : RegistryState) (m : Metric) :
    RunOutcome (RegistryState × Except ServerError Unit) :=
  let full := fullName st.config m.name
  match alookup st.label_keys full with
  | none => .value (st, .error (notRegisteredError full))
  | some keys =>
    let vals := buildLabelValues keys m.labels
    match m.metric_type with
    | .counter =>
      match alookup st.counters full with
      | some cv =>
        if cv.labelNames.length == vals.length then
          let old := (alookup cv.data vals).getD 0
          .value ({ st with counters := (ainsert st.counters full
              ({ cv with data := ainsert cv.data vals (old + m.value.value) })) },
            .ok ())
        else
          .panicked inconsistentCardinalityMsg st
      | none => .value (st, .error (typeMismatchError .counter full))
    | .gauge =>
      match alookup st.gauges full with
      | some gv =>
        if gv.labelNames.length == vals.length then
          .value ({ st with gauges := (ainsert st.gauges full
              ({ gv with data := ainsert gv.data vals m.value.value })) },
            .ok ())
        else
          .panicked inconsistentCardinalityMsg st
      | none => .value (st, .error (typeMismatchError .gauge full))
    | .histogram =>
      match alookup st.histograms full with
      | some hv =>
        if hv.labelNames.length == vals.length then
          let old := (alookup hv.data vals).getD (HistState.fresh hv.buckets)
          .value ({ st with histograms := (ainsert st.histograms full
              ({ hv with data := ainsert hv.data vals (old.observe m.value.value) })) },
            .ok ())
        else
          .panicked inconsistentCardinalityMsg st
      | none => .value (st, .error (typeMismatchError .histogram full))
    | .summary => .value (st, .error (typeMismatchError .summary full))

/-- `MetricsRegistry::get_metrics_count` (src/metrics/registry.rs): the sizes
of the three instrument maps, summed. -/
def getMetricsCount (st : RegistryState) : Nat :=
  st.counters.length + st.gauges.length + st.histograms.length

/-- One `name{k="v",...} value` exposition line (text-format rendering of one
child).  Numeric formatting is simplified relative to the crate's float
formatting; no verified property depends on the non-empty rendering. -/
def renderSample (name : String) (labelNames vals : List String)
    (value : String) : String :=
  let pairs := (labelNames.zip vals).foldl
    (fun acc kv =>
      acc ++ (if acc == "" then "" else ",") ++ kv.1 ++ "=\"" ++ kv.2 ++ "\"") ""
  if pairs == "" then name ++ " " ++ value ++ "\n"
  else name ++ "\x7b" ++ pairs ++ "\x7d " ++ value ++ "\n"

/-- Text-format rendering of the family registered under one qualified name
(modelling `TextEncoder::encode` for that family). -/
def renderFamily (st : RegistryState) (name : String) : String :=
  match alookup st.counters name with
  | some cv =>
    "# TYPE " ++ name ++ " counter\n" ++
    cv.data.foldl
      (fun acc kv => acc ++ renderSample name cv.labelNames kv.1 (ToString.toString kv.2)) ""
  | none =>
    match alookup st.gauges name with
    | some gv =>
      "# TYPE " ++ name ++ " gauge\n" ++
      gv.data.foldl
        (fun acc kv => acc ++ renderSample name gv.labelNames kv.1 (ToString.toString kv.2)) ""
    | none =>
      match alookup st.histograms name with
      | some hv =>
        "# TYPE " ++ name ++ " histogram\n" ++
        hv.data.foldl
          (fun acc kv =>
            acc ++ renderSample (name ++ "_count") hv.labelNames kv.1
              (ToString.toString kv.2.count)) ""
      | none => ""

/-- `MetricsRegistry::gather` (src/metrics/registry.rs): when the inner
prometheus registry has gathered no metric families — i.e. holds no
collectors — return the placeholder comment line; otherwise encode every
family.  Neither branch of the model errs (encoding to an in-memory buffer
cannot fail and the encoder emits UTF-8). -/
def gather (st : RegistryState) : Except ServerError String :=
  if st.collectorNames.isEmpty then
    .ok "# No metrics found in registry\n"
  else
    .ok (st.collectorNames.foldl (fun acc n => acc ++ renderFamily st n) "")

/-- The result of `MetricsCollector::process_metric`
(src/metrics/collector.rs): the mutated registry state, the per-item result,
and whether the self-healing path called `register_metric`. -/
instance {ε α : Type} [DecidableEq ε] [DecidableEq α] :
    DecidableEq (Except ε α) := fun a b =>
  match a, b with
  | .ok x, .ok y =>
    if h : x = y then .isTrue (by rw [h])
    else .isFalse (fun c => h (by injection c))
  | .error x, .error y =>
    if h : x = y then .isTrue (by rw [h])
    else .isFalse (fun c => h (by injection c))
  | .ok _, .error _ => .isFalse (fun c => Except.noConfusion c)
  | .error _, .ok _ => .isFalse (fun c => Except.noConfusion c)

structure ProcessOutcome where
  state : RegistryState
  result : Except ServerError Unit
  registerAttempted : Bool
deriving DecidableEq, Repr

/-- `MetricsCollector::process_metric` (src/metrics/collector.rs): try
`update_metric`; on ANY error (the match is on `Err(_)`), call
`register_metric` and, if that succeeds, `update_metric` again.  A panic in
either update unwinds through this function. -/
def processMetric (st : RegistryState) (m : Metric) : RunOutcome ProcessOutcome :=
  match updateMetric st m with
  | .panicked msg s => .panicked msg s
  | .value (st1, .ok _) =>
    .value { state := st1, result := .ok (), registerAttempted := false }
  | .value (st1, .error _) =>
    match registerMetric st1 m with
    | (st2, .error e) =>
      .value { state := st2, result := .error e, registerAttempted := true }
    | (st2, .ok _) =>
      match updateMetric st2 m with
      | .panicked msg s => .panicked msg s
      | .value (st3, r) =>
        .value { state := st3, result := r, registerAttempted := true }

/-- The per-measurement loop of `MetricsCollector::process_batch`
(src/metrics/collector.rs): the final state, the number of measurements
processed, and the error strings in input order; a per-item panic unwinds
through the loop. -/
def processItems (st : RegistryState) :
    List Metric → RunOutcome (RegistryState × Nat × List String)
  | [] => .value (st, 0, [])
  | m :: rest =>
    match processMetric st m with
    | .panicked msg s => .panicked msg s
    | .value o =>
      match o.result with
      | .ok _ =>
        match processItems o.state rest with
        | .panicked msg s => .panicked msg s
        | .value (st2, p, errs) => .value (st2, p + 1, errs)
      | .error e =>
        match processItems o.state rest with
        | .panicked msg s => .panicked msg s
        | .value (st2, p, errs) =>
          .value (st2, p, ServerError.toString e :: errs)

/-- `MetricsCollector::process_batch` (src/metrics/collector.rs): on any error
the status becomes `partial_success`, and if additionally nothing was processed
the whole call fails; otherwise the accumulated response is returned. -/
def processBatch (st : RegistryState) (b : MetricsBatch) :
    RunOutcome (RegistryState × Except ServerError MetricsResponse) :=
  match processItems st b.metrics with
  | .panicked msg s => .panicked msg s
  | .value (st1, p, errs) =>
    if errs.isEmpty then
      .value (st1, .ok { processed := p, status := "success", errors := errs })
    else if p == 0 then
      .value (st1, .error (.metricsProcessingError
        "Failed to process any metrics in the batch"))
    else
      .value (st1, .ok { processed := p, status := "partial_success", errors := errs })

/-- The ingestion path of `ingest_metrics` (src/api/handlers.rs) after JSON
decoding: `batch.validate()?` then `process_batch`. -/
def ingestMetrics (st : RegistryState) (b : MetricsBatch) :
    RunOutcome (RegistryState × Except ServerError MetricsResponse) :=
  match b.validate with
  | .error e => .value (st, .error e)
  | .ok _ => processBatch st b

/-- Which instrument variant, if any, is registered under a qualified name. -/
def instrumentVariant (st : RegistryState) (name : String) : Option MetricType :=
  if (alookup st.counters name).isSome then some .counter
  else if (alookup st.gauges name).isSome then some .gauge
  else if (alookup st.histograms name).isSome then some .histogram
  else none

/-- Well-formedness of a registry state, maintained by the registration
protocol: the collector set of the inner prometheus registry is exactly the
union of the three instrument maps' key sets, the schema map covers exactly the
registered names, and no name carries two instrument variants. -/
def WF (st : RegistryState) : Prop :=
  (∀ n ∈ st.collectorNames,
    n ∈ keysOf st.counters ∨ n ∈ keysOf st.gauges ∨ n ∈ keysOf st.histograms) ∧
  (∀ n ∈ keysOf st.counters, n ∈ st.collectorNames) ∧
  (∀ n ∈ keysOf st.gauges, n ∈ st.collectorNames) ∧
  (∀ n ∈ keysOf st.histograms, n ∈ st.collectorNames) ∧
  (∀ n ∈ keysOf st.label_keys, n ∈ st.collectorNames) ∧
  (∀ n ∈ st.collectorNames, n ∈ keysOf st.label_keys) ∧
  (∀ n ∈ keysOf st.counters, ¬n ∈ keysOf st.gauges ∧ ¬n ∈ keysOf st.histograms) ∧
  (∀ n ∈ keysOf st.gauges, ¬n ∈ keysOf st.histograms)

instance (st : RegistryState) : Decidable (WF st) := by
  unfold WF; infer_instance

/-! Association-list algebra used throughout the proofs. -/

theorem alookup_isSome_iff [BEq κ] [LawfulBEq κ] (l : List (κ × α)) (k : κ) :
    (alookup l k).isSome ↔ k ∈ keysOf l := by
  induction l with
  | nil => simp [alookup, keysOf]
  | cons p t ih =>
    obtain ⟨a, b⟩ := p
    by_cases h : a = k
    · subst h; simp [alookup, keysOf]
    · have hb : (a == k) = false := beq_eq_false_iff_ne.mpr h
      simp [alookup, keysOf, hb, ih, h]
      exact fun hka => absurd hka.symm h

theorem alookup_eq_none_iff [BEq κ] [LawfulBEq κ] (l : List (κ × α)) (k : κ) :
    alookup l k = none ↔ ¬ k ∈ keysOf l := by
  rw [← alookup_isSome_iff, Option.isSome_iff_exists]
  cases alookup l k <;> simp

theorem alookup_ainsert_self [BEq κ] [LawfulBEq κ] (l : List (κ × α)) (k : κ) (v : α) :
    alookup (ainsert l k v) k = some v := by
  induction l with
  | nil => simp [ainsert, alookup]
  | cons p t ih =>
    obtain ⟨a, b⟩ := p
    by_cases h : a = k
    · subst h; simp [ainsert, alookup]
    · have hb : (a == k) = false := beq_eq_false_iff_ne.mpr h
      simp [ainsert, alookup, hb, ih]

theorem alookup_ainsert_ne [BEq κ] [LawfulBEq κ] (l : List (κ × α)) (k k' : κ) (v : α)
    (h : k' ≠ k) : alookup (ainsert l k v) k' = alookup l k' := by
  induction l with
  | nil =>
    have hb : (k == k') = false := beq_eq_false_iff_ne.mpr (Ne.symm h)
    simp [ainsert, alookup, hb]
  | cons p t ih =>
    obtain ⟨a, b⟩ := p
    by_cases ha : a = k
    · subst ha
      have hb : (a == k') = false := by
        exact beq_eq_false_iff_ne.mpr (fun hc => h hc.symm)
      simp_all [ainsert, alookup]
    · have hb : (a == k) = false := beq_eq_false_iff_ne.mpr ha
      by_cases ha' : a = k'
      · subst ha'; simp [ainsert, alookup, hb]
      · have hb' : (a == k') = false := beq_eq_false_iff_ne.mpr ha'
        simp [ainsert, alookup, hb, hb', ih]

theorem keysOf_ainsert_of_mem [BEq κ] [LawfulBEq κ] (l : List (κ × α)) (k : κ) (v : α)
    (h : k ∈ keysOf l) : keysOf (ainsert l k v) = keysOf l := by
  induction l with
  | nil => simp [keysOf] at h
  | cons p t ih =>
    obtain ⟨a, b⟩ := p
    by_cases ha : a = k
    · subst ha; simp [ainsert, keysOf]
    · have hb : (a == k) = false := beq_eq_false_iff_ne.mpr ha
      have hm : k ∈ keysOf t := by
        simp [keysOf] at h ⊢
        rcases h with h | h
        · exact absurd h.symm ha
        · exact h
      have step : ainsert ((a, b) :: t) k v = (a, b) :: ainsert t k v := by
        simp [ainsert, hb]
      rw [step]
      simp only [keysOf, List.map_cons]
      exact congrArg (a :: ·) (ih hm)

/-! Frame lemmas for the registry operations. -/

theorem buildLabelValues_length (keys : List String)
    (labels : List (String × String)) :
    (buildLabelValues keys labels).length = keys.length := by
  simp [buildLabelValues]

/-- Case analysis of `update_metric`: a failure leaves the state untouched, a
cardinality mismatch panics with the state untouched, and a success folds the
value into exactly one instrument of the claimed variant (whose label count
matches the stored schema) at the schema-derived label-value vector. -/
theorem updateMetric_shape (st : RegistryState) (m : Metric) :
    (∃ e, updateMetric st m = .value (st, .error e)) ∨
    (updateMetric st m = .panicked inconsistentCardinalityMsg st) ∨
    (∃ keys cv, alookup st.label_keys (fullName st.config m.name) = some keys ∧
      alookup st.counters (fullName st.config m.name) = some cv ∧
      cv.labelNames.length = keys.length ∧
      updateMetric st m = .value ({ st with counters := (ainsert st.counters
          (fullName st.config m.name)
          ({ cv with data := (ainsert cv.data (buildLabelValues keys m.labels)
              (((alookup cv.data (buildLabelValues keys m.labels)).getD 0) +
                m.value.value)) })) }, .ok ())) ∨
    (∃ keys gv, alookup st.label_keys (fullName st.config m.name) = some keys ∧
      alookup st.gauges (fullName st.config m.name) = some gv ∧
      gv.labelNames.length = keys.length ∧
      updateMetric st m = .value ({ st with gauges := (ainsert st.gauges
          (fullName st.config m.name)
          ({ gv with data := (ainsert gv.data (buildLabelValues keys m.labels)
              m.value.value) })) }, .ok ())) ∨
    (∃ keys hv, alookup st.label_keys (fullName st.config m.name) = some keys ∧
      alookup st.histograms (fullName st.config m.name) = some hv ∧
      hv.labelNames.length = keys.length ∧
      updateMetric st m = .value ({ st with histograms := (ainsert st.histograms
          (fullName st.config m.name)
          ({ hv with data := (ainsert hv.data (buildLabelValues keys m.labels)
              (((alookup hv.data (buildLabelValues keys m.labels)).getD
                  (HistState.fresh hv.buckets)).observe m.value.value)) })) },
        .ok ())) := by
  cases hk : alookup st.label_keys (fullName st.config m.name) with
  | none =>
    exact Or.inl ⟨notRegisteredError (fullName st.config m.name),
      by simp [updateMetric, hk]⟩
  | some keys =>
    cases htype : m.metric_type with
    | counter =>
      cases hc : alookup st.counters (fullName st.config m.name) with
      | none =>
        exact Or.inl ⟨typeMismatchError .counter (fullName st.config m.name),
          by simp [updateMetric, hk, htype, hc]⟩
      | some cv =>
        by_cases har :
          (cv.labelNames.length == (buildLabelValues keys m.labels).length) = true
        · refine Or.inr (Or.inr (Or.inl ⟨keys, cv, rfl, rfl, ?_, ?_⟩))
          · have := eq_of_beq har
            rw [buildLabelValues_length] at this
            exact this
          · simp [updateMetric, hk, htype, hc, har]
        · have hf : (cv.labelNames.length ==
              (buildLabelValues keys m.labels).length) = false := by
            rw [← Bool.not_eq_true]; exact har
          exact Or.inr (Or.inl (by simp [updateMetric, hk, htype, hc, hf]))
    | gauge =>
      cases hc : alookup st.gauges (fullName st.config m.name) with
      | none =>
        exact Or.inl ⟨typeMismatchError .gauge (fullName st.config m.name),
          by simp [updateMetric, hk, htype, hc]⟩
      | some gv =>
        by_cases har :
          (gv.labelNames.length == (buildLabelValues keys m.labels).length) = true
        · refine Or.inr (Or.inr (Or.inr (Or.inl ⟨keys, gv, rfl, rfl, ?_, ?_⟩)))
          · have := eq_of_beq har
            rw [buildLabelValues_length] at this
            exact this
          · simp [updateMetric, hk, htype, hc, har]
        · have hf : (gv.labelNames.length ==
              (buildLabelValues keys m.labels).length) = false := by
            rw [← Bool.not_eq_true]; exact har
          exact Or.inr (Or.inl (by simp [updateMetric, hk, htype, hc, hf]))
    | histogram =>
      cases hc : alookup st.histograms (fullName st.config m.name) with
      | none =>
        exact Or.inl ⟨typeMismatchError .histogram (fullName st.config m.name),
          by simp [updateMetric, hk, htype, hc]⟩
      | some hv =>
        by_cases har :
          (hv.labelNames.length == (buildLabelValues keys m.labels).length) = true
        · refine Or.inr (Or.inr (Or.inr (Or.inr ⟨keys, hv, rfl, rfl, ?_, ?_⟩)))
          · have := eq_of_beq har
            rw [buildLabelValues_length] at this
            exact this
          · simp [updateMetric, hk, htype, hc, har]
        · have hf : (hv.labelNames.length ==
              (buildLabelValues keys m.labels).length) = false := by
            rw [← Bool.not_eq_true]; exact har
          exact Or.inr (Or.inl (by simp [updateMetric, hk, htype, hc, hf]))
    | summary =>
      exact Or.inl ⟨typeMismatchError .summary (fullName st.config m.name),
        by simp [updateMetric, hk, htype]⟩

theorem updateMetric_value_label_keys (st : RegistryState) (m : Metric)
    (st1 : RegistryState) (r : Except ServerError Unit)
    (h : updateMetric st m = .value (st1, r)) : st1.label_keys = st.label_keys := by
  rcases updateMetric_shape st m with ⟨e0, h0⟩ | h0 |
    ⟨keys, cv, _, _, _, h0⟩ | ⟨keys, gv, _, _, _, h0⟩ | ⟨keys, hv, _, _, _, h0⟩ <;>
    rw [h0] at h
  · injection h with h1
    injection h1 with h2 h3
    rw [← h2]
  · exact RunOutcome.noConfusion h
  · injection h with h1
    injection h1 with h2 h3
    rw [← h2]
  · injection h with h1
    injection h1 with h2 h3
    rw [← h2]
  · injection h with h1
    injection h1 with h2 h3
    rw [← h2]

theorem updateMetric_error_state (st : RegistryState) (m : Metric)
    (st1 : RegistryState) (e : ServerError)
    (h : updateMetric st m = .value (st1, .error e)) : st1 = st := by
  rcases updateMetric_shape st m with ⟨e0, h0⟩ | h0 |
    ⟨keys, cv, _, _, _, h0⟩ | ⟨keys, gv, _, _, _, h0⟩ | ⟨keys, hv, _, _, _, h0⟩ <;>
    rw [h0] at h
  · injection h with h1
    injection h1 with h2 h3
    rw [← h2]
  · exact RunOutcome.noConfusion h
  · injection h with h1
    injection h1 with h2 h3
    exact Except.noConfusion h3
  · injection h with h1
    injection h1 with h2 h3
    exact Except.noConfusion h3
  · injection h with h1
    injection h1 with h2 h3
    exact Except.noConfusion h3

theorem updateMetric_panicked_state (st : RegistryState) (m : Metric)
    (msg : String) (st1 : RegistryState)
    (h : updateMetric st m = .panicked msg st1) : st1 = st := by
  rcases updateMetric_shape st m with ⟨e0, h0⟩ | h0 |
    ⟨keys, cv, _, _, _, h0⟩ | ⟨keys, gv, _, _, _, h0⟩ | ⟨keys, hv, _, _, _, h0⟩ <;>
    rw [h0] at h
  · exact RunOutcome.noConfusion h
  · injection h with h1 h2
    rw [← h2]
  · exact RunOutcome.noConfusion h
  · exact RunOutcome.noConfusion h
  · exact RunOutcome.noConfusion h

theorem registerCounter_label_keys (st : RegistryState) (n h : String)
    (lns : List String) : (registerCounter st n h lns).1.label_keys = st.label_keys := by
  unfold registerCounter
  split
  · rfl
  · split
    · simp
    · split <;> simp

theorem registerGauge_label_keys (st : RegistryState) (n h : String)
    (lns : List String) : (registerGauge st n h lns).1.label_keys = st.label_keys := by
  unfold registerGauge
  split
  · rfl
  · split
    · simp
    · split <;> simp

theorem registerHistogram_label_keys (st : RegistryState) (n h : String)
    (lns : List String) : (registerHistogram st n h lns).1.label_keys = st.label_keys := by
  unfold registerHistogram
  split
  · rfl
  · split
    · simp
    · split <;> simp

theorem registerCounter_error_state (st : RegistryState) (n h : String)
    (lns : List String) (e : ServerError) :
    (registerCounter st n h lns).2 = .error e → (registerCounter st n h lns).1 = st := by
  unfold registerCounter
  split
  · simp
  · split
    · simp
    · split <;> simp

theorem registerGauge_error_state (st : RegistryState) (n h : String)
    (lns : List String) (e : ServerError) :
    (registerGauge st n h lns).2 = .error e → (registerGauge st n h lns).1 = st := by
  unfold registerGauge
  split
  · simp
  · split
    · simp
    · split <;> simp

theorem registerHistogram_error_state (st : RegistryState) (n h : String)
    (lns : List String) (e : ServerError) :
    (registerHistogram st n h lns).2 = .error e → (registerHistogram st n h lns).1 = st := by
  unfold registerHistogram
  split
  · simp
  · split
    · simp
    · split <;> simp

theorem registerMetric_error_state (st : RegistryState) (m : Metric) (e : ServerError) :
    (registerMetric st m).2 = .error e → (registerMetric st m).1 = st := by
  unfold registerMetric
  cases htype : m.metric_type with
  | counter =>
    cases hr : registerCounter st (fullName st.config m.name) m.help (sortedKeys m.labels) with
    | mk st1 r =>
      cases r with
      | ok u => simp [hr]
      | error e2 =>
        simp only [hr]
        intro _
        have hh := registerCounter_error_state st (fullName st.config m.name) m.help
          (sortedKeys m.labels) e2
        rw [hr] at hh
        simpa using hh rfl
  | gauge =>
    cases hr : registerGauge st (fullName st.config m.name) m.help (sortedKeys m.labels) with
    | mk st1 r =>
      cases r with
      | ok u => simp [hr]
      | error e2 =>
        simp only [hr]
        intro _
        have hh := registerGauge_error_state st (fullName st.config m.name) m.help
          (sortedKeys m.labels) e2
        rw [hr] at hh
        simpa using hh rfl
  | histogram =>
    cases hr : registerHistogram st (fullName st.config m.name) m.help (sortedKeys m.labels) with
    | mk st1 r =>
      cases r with
      | ok u => simp [hr]
      | error e2 =>
        simp only [hr]
        intro _
        have hh := registerHistogram_error_state st (fullName st.config m.name) m.help
          (sortedKeys m.labels) e2
        rw [hr] at hh
        simpa using hh rfl
  | summary => simp

theorem registerMetric_ok_label_keys (st : RegistryState) (m : Metric) :
    (registerMetric st m).2 = .ok () →
    (registerMetric st m).1.label_keys =
      ainsert st.label_keys (fullName st.config m.name) (sortedKeys m.labels) := by
  unfold registerMetric
  cases htype : m.metric_type with
  | counter =>
    cases hr : registerCounter st (fullName st.config m.name) m.help (sortedKeys m.labels) with
    | mk st1 r =>
      cases r with
      | ok u =>
        cases u
        simp only [hr]
        intro _
        have hh := registerCounter_label_keys st (fullName st.config m.name) m.help
          (sortedKeys m.labels)
        rw [hr] at hh
        have hl : st1.label_keys = st.label_keys := by simpa using hh
        simp [hl]
      | error e2 => simp [hr]
  | gauge =>
    cases hr : registerGauge st (fullName st.config m.name) m.help (sortedKeys m.labels) with
    | mk st1 r =>
      cases r with
      | ok u =>
        cases u
        simp only [hr]
        intro _
        have hh := registerGauge_label_keys st (fullName st.config m.name) m.help
          (sortedKeys m.labels)
        rw [hr] at hh
        have hl : st1.label_keys = st.label_keys := by simpa using hh
        simp [hl]
      | error e2 => simp [hr]
  | histogram =>
    cases hr : registerHistogram st (fullName st.config m.name) m.help (sortedKeys m.labels) with
    | mk st1 r =>
      cases r with
      | ok u =>
        cases u
        simp only [hr]
        intro _
        have hh := registerHistogram_label_keys st (fullName st.config m.name) m.help
          (sortedKeys m.labels)
        rw [hr] at hh
        have hl : st1.label_keys = st.label_keys := by simpa using hh
        simp [hl]
      | error e2 => simp [hr]
  | summary => simp

/-- Facts derivable from a well-formed state in which `full` carries an
instrument of variant `v`. -/
theorem variant_facts (st : RegistryState) (full : String) (v : MetricType)
    (hwf : WF st) (hv : instrumentVariant st full = some v) :
    full ∈ st.collectorNames ∧ full ∈ keysOf st.label_keys ∧
    (v ≠ .counter → alookup st.counters full = none) ∧
    (v ≠ .gauge → alookup st.gauges full = none) ∧
    (v ≠ .histogram → alookup st.histograms full = none) := by
  obtain ⟨w1, w2, w3, w4, w5, w6, w7, w8⟩ := hwf
  unfold instrumentVariant at hv
  by_cases hc : (alookup st.counters full).isSome
  · simp [hc] at hv
    subst hv
    have hmem : full ∈ keysOf st.counters := (alookup_isSome_iff _ _).mp hc
    have hcol : full ∈ st.collectorNames := w2 full hmem
    refine ⟨hcol, w6 full hcol, fun hvne => absurd rfl hvne, ?_, ?_⟩
    · exact fun _ => (alookup_eq_none_iff _ _).mpr (w7 full hmem).1
    · exact fun _ => (alookup_eq_none_iff _ _).mpr (w7 full hmem).2
  · have hcn : alookup st.counters full = none := Option.not_isSome_iff_eq_none.mp hc
    by_cases hg : (alookup st.gauges full).isSome
    · simp [hc, hg] at hv
      subst hv
      have hmem : full ∈ keysOf st.gauges := (alookup_isSome_iff _ _).mp hg
      have hcol : full ∈ st.collectorNames := w3 full hmem
      refine ⟨hcol, w6 full hcol, fun _ => hcn, fun hvne => absurd rfl hvne, ?_⟩
      exact fun _ => (alookup_eq_none_iff _ _).mpr (w8 full hmem)
    · have hgn : alookup st.gauges full = none := Option.not_isSome_iff_eq_none.mp hg
      by_cases hh : (alookup st.histograms full).isSome
      · simp [hc, hg, hh] at hv
        subst hv
        have hmem : full ∈ keysOf st.histograms := (alookup_isSome_iff _ _).mp hh
        have hcol : full ∈ st.collectorNames := w4 full hmem
        exact ⟨hcol, w6 full hcol, fun _ => hcn, fun _ => hgn,
          fun hvne => absurd rfl hvne⟩
      · simp [hc, hg, hh] at hv

/-- In a well-formed state, an update whose claimed variant differs from the
registered one fails on the claimed variant's instrument lookup (or on the
summary check) and leaves the state untouched. -/
theorem updateMetric_mismatch (st : RegistryState) (m : Metric) (v : MetricType)
    (full : String) (hfull : fullName st.config m.name = full)
    (hwf : WF st) (hv : instrumentVariant st full = some v)
    (hne : m.metric_type ≠ v) :
    updateMetric st m = .value (st, .error (typeMismatchError m.metric_type full)) := by
  obtain ⟨hcol, hlk, hcn, hgn, hhn⟩ := variant_facts st full v hwf hv
  have hks : (alookup st.label_keys full).isSome := (alookup_isSome_iff _ _).mpr hlk
  obtain ⟨keys, hkeys⟩ := Option.isSome_iff_exists.mp hks
  cases htype : m.metric_type with
  | counter =>
    have hnone : alookup st.counters full = none := by
      apply hcn; intro hvc; rw [htype, hvc] at hne; exact hne rfl
    simp [updateMetric, hfull, hkeys, htype, hnone, typeMismatchError]
  | gauge =>
    have hnone : alookup st.gauges full = none := by
      apply hgn; intro hvc; rw [htype, hvc] at hne; exact hne rfl
    simp [updateMetric, hfull, hkeys, htype, hnone, typeMismatchError]
  | histogram =>
    have hnone : alookup st.histograms full = none := by
      apply hhn; intro hvc; rw [htype, hvc] at hne; exact hne rfl
    simp [updateMetric, hfull, hkeys, htype, hnone, typeMismatchError]
  | summary =>
    simp [updateMetric, hfull, hkeys, htype, typeMismatchError]

/-- In a well-formed state, attempting to register a metric whose qualified
name already carries an instrument of a different variant fails — either on
descriptor validation or on the inner prometheus registry's duplicate check —
and leaves the state untouched. -/
theorem registerMetric_mismatch (st : RegistryState) (m : Metric) (v : MetricType)
    (full : String) (hfull : fullName st.config m.name = full)
    (hwf : WF st) (hv : instrumentVariant st full = some v)
    (hne : m.metric_type ≠ v) :
    (registerMetric st m).1 = st ∧ ∃ e, (registerMetric st m).2 = .error e := by
  obtain ⟨hcol, hlk, hcn, hgn, hhn⟩ := variant_facts st full v hwf hv
  cases htype : m.metric_type with
  | counter =>
    have hnone : alookup st.counters full = none := by
      apply hcn; intro hvc; rw [htype, hvc] at hne; exact hne rfl
    have hrc : ∀ hlp lns, (registerCounter st full hlp lns).1 = st ∧
        ∃ e, (registerCounter st full hlp lns).2 = .error e := by
      intro hlp lns
      unfold registerCounter
      rw [hnone]
      simp only [Option.isSome_none, Bool.false_eq_true, if_false]
      cases checkDesc full hlp lns with
      | error e => exact ⟨rfl, e, rfl⟩
      | ok u => simp [hcol]
    unfold registerMetric
    simp only [hfull, htype]
    obtain ⟨h1, e, h2⟩ := hrc m.help (sortedKeys m.labels)
    cases hr : registerCounter st full m.help (sortedKeys m.labels) with
    | mk st1 r =>
      rw [hr] at h1 h2
      cases r with
      | ok u => simp at h2
      | error e2 => exact ⟨h1, e2, rfl⟩
  | gauge =>
    have hnone : alookup st.gauges full = none := by
      apply hgn; intro hvc; rw [htype, hvc] at hne; exact hne rfl
    have hrc : ∀ hlp lns, (registerGauge st full hlp lns).1 = st ∧
        ∃ e, (registerGauge st full hlp lns).2 = .error e := by
      intro hlp lns
      unfold registerGauge
      rw [hnone]
      simp only [Option.isSome_none, Bool.false_eq_true, if_false]
      cases checkDesc full hlp lns with
      | error e => exact ⟨rfl, e, rfl⟩
      | ok u => simp [hcol]
    unfold registerMetric
    simp only [hfull, htype]
    obtain ⟨h1, e, h2⟩ := hrc m.help (sortedKeys m.labels)
    cases hr : registerGauge st full m.help (sortedKeys m.labels) with
    | mk st1 r =>
      rw [hr] at h1 h2
      cases r with
      | ok u => simp at h2
      | error e2 => exact ⟨h1, e2, rfl⟩
  | histogram =>
    have hnone : alookup st.histograms full = none := by
      apply hhn; intro hvc; rw [htype, hvc] at hne; exact hne rfl
    have hrc : ∀ hlp lns, (registerHistogram st full hlp lns).1 = st ∧
        ∃ e, (registerHistogram st full hlp lns).2 = .error e := by
      intro hlp lns
      unfold registerHistogram
      rw [hnone]
      simp only [Option.isSome_none, Bool.false_eq_true, if_false]
      cases checkDesc full hlp lns with
      | error e => exact ⟨rfl, e, rfl⟩
      | ok u => simp [hcol]
    unfold registerMetric
    simp only [hfull, htype]
    obtain ⟨h1, e, h2⟩ := hrc m.help (sortedKeys m.labels)
    cases hr : registerHistogram st full m.help (sortedKeys m.labels) with
    | mk st1 r =>
      rw [hr] at h1 h2
      cases r with
      | ok u => simp at h2
      | error e2 => exact ⟨h1, e2, rfl⟩
  | summary =>
    unfold registerMetric
    simp [htype]

/-- Bridge between the boolean `List.contains` used in the embedded code and
list membership. -/
theorem contains_iff_mem (l : List String) (a : String) :
    l.contains a = true ↔ a ∈ l := by
  simp

/-- The per-measurement loop preserves the count on every completed (panic
free) run: processed plus errors equals the batch length. -/
theorem processItems_count (st : RegistryState) (ms : List Metric)
    (st1 : RegistryState) (p : Nat) (errs : List String)
    (h : processItems st ms = .value (st1, p, errs)) :
    p + errs.length = ms.length := by
  induction ms generalizing st st1 p errs with
  | nil =>
    simp [processItems] at h
    obtain ⟨h1, h2, h3⟩ := h
    simp [← h2, ← h3]
  | cons m rest ih =>
    unfold processItems at h
    cases hpm : processMetric st m with
    | panicked msg s =>
      simp only [hpm] at h
      exact RunOutcome.noConfusion h
    | value o =>
      simp only [hpm] at h
      cases hres : o.result with
      | ok u =>
        simp only [hres] at h
        cases hrest : processItems o.state rest with
        | panicked msg s =>
          simp only [hrest] at h
          exact RunOutcome.noConfusion h
        | value tr =>
          obtain ⟨st2, pp, errs2⟩ := tr
          simp only [hrest] at h
          injection h with h1
          have hih := ih o.state st2 pp errs2 hrest
          obtain ⟨ha, hb, hc⟩ := (by
            injection h1 with ha hbc
            injection hbc with hb hc
            exact ⟨ha, hb, hc⟩ : st2 = st1 ∧ pp + 1 = p ∧ errs2 = errs)
          subst hb
          subst hc
          simp
          omega
      | error e =>
        simp only [hres] at h
        cases hrest : processItems o.state rest with
        | panicked msg s =>
          simp only [hrest] at h
          exact RunOutcome.noConfusion h
        | value tr =>
          obtain ⟨st2, pp, errs2⟩ := tr
          simp only [hrest] at h
          injection h with h1
          have hih := ih o.state st2 pp errs2 hrest
          obtain ⟨ha, hb, hc⟩ := (by
            injection h1 with ha hbc
            injection hbc with hb hc
            exact ⟨ha, hb, hc⟩ :
            st2 = st1 ∧ pp = p ∧ ServerError.toString e :: errs2 = errs)
          subst hb
          subst hc
          simp
          omega

/-- Every failure of the label loop of `Validate for Metric` is a
`ValidationError`. -/
theorem validateLabels_error (ls : List (String × String)) (e : ServerError) :
    validateLabels ls = .error e → ∃ msg, e = .validationError msg := by
  induction ls with
  | nil => simp [validateLabels]
  | cons p rest ih =>
    obtain ⟨key, val⟩ := p
    unfold validateLabels
    split
    · intro h
      injection h with h2
      exact ⟨_, h2.symm⟩
    · split
      · intro h
        injection h with h2
        exact ⟨_, h2.symm⟩
      · split
        · intro h
          injection h with h2
          exact ⟨_, h2.symm⟩
        · exact ih

/-- If the label loop succeeds, no label key equals `le`. -/
theorem validateLabels_no_le (ls : List (String × String)) :
    validateLabels ls = .ok () → alookup ls "le" = none := by
  induction ls with
  | nil => simp [alookup]
  | cons p rest ih =>
    obtain ⟨key, val⟩ := p
    unfold validateLabels
    split
    · simp
    · split
      · simp
      · split
        · simp
        · intro h
          rename_i hemp hchars hres
          have hkey : ¬ key = "le" := by
            intro hk
            exact hres (by simp [hk])
          have hb : (key == "le") = false := beq_eq_false_iff_ne.mpr hkey
          simp [alookup, hb, ih h]

/-- The label loop succeeds on a list of well-formed, unreserved keys. -/
theorem validateLabels_ok_of (ls : List (String × String))
    (h : ∀ p ∈ ls, p.1 ≠ "" ∧ p.1.data.all labelCharOk = true ∧
      p.1 ≠ "le" ∧ p.1 ≠ "quantile") :
    validateLabels ls = .ok () := by
  induction ls with
  | nil => simp [validateLabels]
  | cons p rest ih =>
    obtain ⟨key, val⟩ := p
    obtain ⟨h1, h2, h3, h4⟩ := h (key, val) (List.mem_cons_self _ _)
    have hrest := ih (fun q hq => h q (List.mem_cons_of_mem _ hq))
    have b1 : (key == "") = false := beq_eq_false_iff_ne.mpr h1
    have b3 : (key == "le") = false := beq_eq_false_iff_ne.mpr h3
    have b4 : (key == "quantile") = false := beq_eq_false_iff_ne.mpr h4
    simp [validateLabels, b1, b3, b4, h2, hrest]

/-- Every failure of `Validate for Metric` is a `ValidationError`. -/
theorem metricValidate_error (m : Metric) (e : ServerError) :
    m.validate = .error e → ∃ msg, e = .validationError msg := by
  unfold Metric.validate
  split
  · intro h
    injection h with h2
    exact ⟨_, h2.symm⟩
  · split
    · intro h
      injection h with h2
      exact ⟨_, h2.symm⟩
    · split
      · intro h
        injection h with h2
        exact ⟨_, h2.symm⟩
      · exact validateLabels_error m.labels e

/-- A measurement that passes `Validate for Metric` has no `le` label key. -/
theorem metricValidate_no_le (m : Metric) :
    m.validate = .ok () → alookup m.labels "le" = none := by
  unfold Metric.validate
  split
  · simp
  · split
    · simp
    · split
      · simp
      · exact validateLabels_no_le m.labels

/-- The per-item loop of batch validation succeeds exactly when every
measurement validates. -/
theorem validateEach_ok_iff (ms : List Metric) :
    validateEach ms = .ok () ↔ ∀ m ∈ ms, m.validate = .ok () := by
  induction ms with
  | nil => simp [validateEach]
  | cons m rest ih =>
    unfold validateEach
    cases hv : m.validate with
    | error e =>
      simp only [hv]
      constructor
      · intro h; cases h
      · intro h
        have := h m (List.mem_cons_self _ _)
        rw [hv] at this
        cases this
    | ok u =>
      cases u
      simp only [hv, ih]
      constructor
      · intro h q hq
        rcases List.mem_cons.mp hq with hq | hq
        · rw [hq]; exact hv
        · exact h q hq
      · intro h q hq; exact h q (List.mem_cons_of_mem _ hq)

/-- Every failure of the per-item loop is a `ValidationError`. -/
theorem validateEach_error (ms : List Metric) (e : ServerError) :
    validateEach ms = .error e → ∃ msg, e = .validationError msg := by
  induction ms with
  | nil => simp [validateEach]
  | cons m rest ih =>
    unfold validateEach
    cases hv : m.validate with
    | error e2 =>
      intro h
      have he : e2 = e := by simpa using h
      subst he
      exact metricValidate_error m e2 hv
    | ok u => cases u; exact ih

/-- The duplicate scan succeeds exactly when the canonical keys are distinct
and none was seen before. -/
theorem dupScan_ok_iff (seen : List String) (ms : List Metric) :
    dupScan seen ms = .ok () ↔
      ((ms.map canonicalKey).Nodup ∧ ∀ k ∈ ms.map canonicalKey, ¬ k ∈ seen) := by
  induction ms generalizing seen with
  | nil => simp [dupScan]
  | cons m rest ih =>
    unfold dupScan
    by_cases hc : canonicalKey m ∈ seen
    · have hb : seen.contains (canonicalKey m) = true := (contains_iff_mem _ _).mpr hc
      simp only [hb]
      simp [hc]
    · have hb : seen.contains (canonicalKey m) = false := by
        rw [← Bool.not_eq_true]
        intro hx
        exact hc ((contains_iff_mem _ _).mp hx)
      simp only [hb, Bool.false_eq_true, if_false]
      rw [ih (canonicalKey m :: seen)]
      constructor
      · rintro ⟨hnd, hdisj⟩
        refine ⟨List.nodup_cons.mpr ⟨?_, hnd⟩, ?_⟩
        · intro hmem
          exact (hdisj _ hmem) (List.mem_cons_self _ _)
        · intro k hk
          rcases List.mem_cons.mp hk with hk | hk
          · rw [hk]; exact hc
          · intro hks
            exact (hdisj k hk) (List.mem_cons_of_mem _ hks)
      · rintro ⟨hnd, hdisj⟩
        obtain ⟨hhead, htail⟩ := List.nodup_cons.mp hnd
        refine ⟨htail, ?_⟩
        intro k hk hks
        rcases List.mem_cons.mp hks with hks | hks
        · exact hhead (hks ▸ hk)
        · exact (hdisj k (List.mem_cons_of_mem _ hk)) hks

/-- Every failure of the duplicate scan is a `ValidationError`. -/
theorem dupScan_error (seen : List String) (ms : List Metric) (e : ServerError) :
    dupScan seen ms = .error e → ∃ msg, e = .validationError msg := by
  induction ms generalizing seen with
  | nil => simp [dupScan]
  | cons m rest ih =>
    unfold dupScan
    by_cases hcb : seen.contains (canonicalKey m) = true
    · simp only [hcb, if_true]
      intro h
      injection h with h2
      exact ⟨_, h2.symm⟩
    · have hb : seen.contains (canonicalKey m) = false := by
        rw [← Bool.not_eq_true]; exact hcb
      simp only [hb, Bool.false_eq_true, if_false]
      exact ih _

/-- Every failure of `Validate for MetricsBatch` is a `ValidationError`. -/
theorem batchValidate_error (b : MetricsBatch) (e : ServerError) :
    b.validate = .error e → ∃ msg, e = .validationError msg := by
  unfold MetricsBatch.validate
  split
  · intro h
    injection h with h2
    exact ⟨_, h2.symm⟩
  · split
    · intro h
      injection h with h2
      exact ⟨_, h2.symm⟩
    · cases hv : validateEach b.metrics with
      | error e2 =>
        intro h
        have he : e2 = e := by simpa using h
        subst he
        exact validateEach_error b.metrics e2 hv
      | ok u => cases u; exact dupScan_error [] b.metrics e

/-- A batch that passes validation consists of measurements that each pass
per-item validation. -/
theorem batchValidate_ok_items (b : MetricsBatch) :
    b.validate = .ok () → ∀ m ∈ b.metrics, m.validate = .ok () := by
  unfold MetricsBatch.validate
  split
  · simp
  · split
    · simp
    · cases hv : validateEach b.metrics with
      | error e2 => simp
      | ok u =>
        cases u
        intro _
        exact (validateEach_ok_iff b.metrics).mp hv

/-! String-head helpers used to separate the distinct error messages. -/

theorem data_append (s t : String) : (s ++ t).data = s.data ++ t.data := by
  cases s; cases t; rfl

theorem head_append (a b : String) (c : Char) (h : a.data.head? = some c) :
    (a ++ b).data.head? = some c := by
  rw [data_append]
  cases hd : a.data with
  | nil => rw [hd] at h; cases h
  | cons x xs =>
    rw [hd] at h
    injection h with h2
    subst h2
    simp

/-- The error produced by `update_metric` on a variant mismatch is textually
distinct from its `NotRegistered` error: the messages start with different
words. -/
theorem mismatch_ne_notRegistered (t : MetricType) (full : String) :
    typeMismatchError t full ≠ notRegisteredError full := by
  have hM : (("Metric \x27" ++ full) ++ "\x27 not registered").data.head? = some 'M' :=
    head_append _ _ _ (head_append _ _ _ rfl)
  cases t with
  | counter =>
    intro h
    injection h with h2
    have hC : (("Counter \x27" ++ full) ++ "\x27 not registered").data.head? = some 'C' :=
      head_append _ _ _ (head_append _ _ _ rfl)
    have := congrArg (fun s : String => s.data.head?) h2
    simp only [typeMismatchError, notRegisteredError] at this
    rw [hC, hM] at this
    simp at this
  | gauge =>
    intro h
    injection h with h2
    have hG : (("Gauge \x27" ++ full) ++ "\x27 not registered").data.head? = some 'G' :=
      head_append _ _ _ (head_append _ _ _ rfl)
    have := congrArg (fun s : String => s.data.head?) h2
    simp only at this
    rw [hG, hM] at this
    simp at this
  | histogram =>
    intro h
    injection h with h2
    have hH : (("Histogram \x27" ++ full) ++ "\x27 not registered").data.head? = some 'H' :=
      head_append _ _ _ (head_append _ _ _ rfl)
    have := congrArg (fun s : String => s.data.head?) h2
    simp only at this
    rw [hH, hM] at this
    simp at this
  | summary =>
    intro h
    injection h with h2
    have hS : ("Summary metrics are not supported yet" : String).data.head? = some 'S' := rfl
    have := congrArg (fun s : String => s.data.head?) h2
    simp only at this
    rw [hS, hM] at this
    simp at this

/-! Concrete scenario used by the counterexamples and witnesses. -/

/-- A measurement value used by the concrete scenarios. -/
def exValue : MetricValue := ⟨1, none⟩

/-- A counter measurement named `x` with label key `a`. -/
def exCounterX : Metric := ⟨"x", .counter, "h", [("a", "1")], exValue⟩

/-- The same metric name `x`, again a counter, but with label key `b`. -/
def exCounterXB : Metric := ⟨"x", .counter, "h", [("b", "2")], exValue⟩

/-- A gauge measurement under the same name `x`. -/
def exGaugeX : Metric := ⟨"x", .gauge, "h", [("a", "1")], exValue⟩

/-- A registry fresh from `MetricsRegistry::new` with the default config. -/
def exEmptyState : RegistryState := initialState defaultMetricsConfig

/-- The registry after registering `x` as a counter with label schema `[a]`. -/
def exStateX : RegistryState := (registerMetric exEmptyState exCounterX).1

/-- The counter instrument stored for `x` in `exStateX`. -/
def exCounterVecX : CounterVec := ⟨["a"], []⟩

/-- A valid counter measurement. -/
def exOkA : Metric := ⟨"a1", .counter, "h", [("k", "v")], exValue⟩

/-- A measurement using the reserved label key `le`. -/
def exLeB : Metric := ⟨"a2", .counter, "h", [("le", "0.5")], exValue⟩

/-- Another valid counter measurement. -/
def exOkC : Metric := ⟨"a3", .counter, "h", [("k", "v")], exValue⟩

/-- A batch of three measurements of which exactly the middle one uses the
reserved label key `le`. -/
def exBatchLe : MetricsBatch := ⟨[exOkA, exLeB, exOkC], "s"⟩

/-- A batch with a single valid measurement. -/
def exBatchOne : MetricsBatch := ⟨[exCounterX], "s"⟩

/-- A batch with two valid, distinct measurements. -/
def exBatchTwo : MetricsBatch := ⟨[exOkA, exOkC], "s"⟩

/-- A measurement whose name is the single non-ASCII letter `é` (U+00E9). -/
def exAcuteMetric : Metric := ⟨"é", .counter, "h", [("k", "v")], exValue⟩

/-- Label map `b ↦ c,d=e`. -/
def exDup1 : Metric := ⟨"a", .counter, "h", [("b", "c,d=e")], exValue⟩

/-- Label map `b ↦ c, d ↦ e`: a different label set whose canonical key
collides with `exDup1`. -/
def exDup2 : Metric := ⟨"a", .counter, "h", [("b", "c"), ("d", "e")], exValue⟩

/-- A batch containing the two colliding measurements. -/
def exBatchDup : MetricsBatch := ⟨[exDup1, exDup2], "s"⟩

/-- Per-character form of the spec\x27s metric-name rule `[A-Za-z0-9_:]+`
(written from the spec\x27s words, for comparison with the code\x27s
`nameCharOk`). -/
def specNameCharOk (c : Char) : Bool :=
  c.isAlpha || c.isDigit || c == '_' || c == ':'

/-- The spec\x27s metric-name rule `[A-Za-z0-9_:]+`: non-empty and every
character in the ASCII class (written from the spec\x27s words). -/
def specNameAccepts (s : String) : Bool :=
  !s.data.isEmpty && s.data.all specNameCharOk

/-- Below code point 0x80 the code\x27s name-character predicate coincides with
the spec\x27s ASCII class. -/
theorem nameCharOk_ascii (c : Char) (h : c.toNat < 0x80) :
    nameCharOk c = specNameCharOk c := by
  have e1 : (c.toNat == 0xAA) = false := by rw [beq_eq_false_iff_ne]; omega
  have e2 : (c.toNat == 0xB5) = false := by rw [beq_eq_false_iff_ne]; omega
  have e3 : (c.toNat == 0xBA) = false := by rw [beq_eq_false_iff_ne]; omega
  have e4 : (c.toNat == 0xB2) = false := by rw [beq_eq_false_iff_ne]; omega
  have e5 : (c.toNat == 0xB3) = false := by rw [beq_eq_false_iff_ne]; omega
  have e6 : (c.toNat == 0xB9) = false := by rw [beq_eq_false_iff_ne]; omega
  have e7 : (c.toNat == 0xBC) = false := by rw [beq_eq_false_iff_ne]; omega
  have e8 : (c.toNat == 0xBD) = false := by rw [beq_eq_false_iff_ne]; omega
  have e9 : (c.toNat == 0xBE) = false := by rw [beq_eq_false_iff_ne]; omega
  have e10 : decide (0xC0 ≤ c.toNat) = false := decide_eq_false (by omega)
  simp [nameCharOk, specNameCharOk, rustIsAlphanumeric, Char.isAlphanum,
    e1, e2, e3, e4, e5, e6, e7, e8, e9, e10, Bool.or_assoc]

/-- C2 counterexample: registering `x` as a counter fixes the stored label-key
schema `[a]`; a later `register_metric` call for the same qualified name (same
variant — a no-op on the instrument itself) succeeds and silently rewrites the
stored schema to `[b]`, so the schema subsequent updates are mapped against
does change. -/
theorem c2_counterexample :
    alookup exStateX.label_keys "app_metrics_server_x" = some ["a"] ∧
    (registerMetric exStateX exCounterXB).2 = .ok () ∧
    alookup (registerMetric exStateX exCounterXB).1.label_keys
      "app_metrics_server_x" = some ["b"] := by decide

/-- C2 (amended): the stored label-key schema is never changed by
`update_metric` (a completed update preserves it and a panicking update aborts
with the state untouched), and a failed `register_metric` call leaves it
unchanged; but every successful `register_metric` call — including a repeat
registration of an already-existing instrument of the same variant —
overwrites the schema stored for the qualified name with the new call\x27s
sorted label keys. -/
theorem c2_schema_overwrite_on_reregister (st : RegistryState) (m : Metric) :
    (∀ st1 r, updateMetric st m = .value (st1, r) →
      st1.label_keys = st.label_keys) ∧
    (∀ msg st1, updateMetric st m = .panicked msg st1 → st1 = st) ∧
    (∀ e, (registerMetric st m).2 = .error e →
      (registerMetric st m).1.label_keys = st.label_keys) ∧
    ((registerMetric st m).2 = .ok () →
      (registerMetric st m).1.label_keys =
        ainsert st.label_keys (fullName st.config m.name) (sortedKeys m.labels)) := by
  refine ⟨updateMetric_value_label_keys st m, updateMetric_panicked_state st m,
    ?_, registerMetric_ok_label_keys st m⟩
  intro e he
  rw [registerMetric_error_state st m e he]

/-- Witness for C2 (amended) at the concrete re-registration scenario. -/
theorem c2_schema_overwrite_witness :
    (registerMetric exStateX exCounterXB).2 = .ok () ∧
    (registerMetric exStateX exCounterXB).1.label_keys =
      ainsert exStateX.label_keys (fullName exStateX.config exCounterXB.name)
        (sortedKeys exCounterXB.labels) :=
  ⟨by decide,
   (c2_schema_overwrite_on_reregister exStateX exCounterXB).2.2.2 (by decide)⟩

/-- C3: an `update_metric` call claiming a variant different from the one the
qualified name is registered with fails with the mismatch-path error — which is
distinct from the `NotRegistered` error — and the measurement is never coerced
into or applied to the existing instrument: the registry state is unchanged. -/
theorem c3_update_type_mismatch (st : RegistryState) (m : Metric) (v : MetricType)
    (hwf : WF st)
    (hv : instrumentVariant st (fullName st.config m.name) = some v)
    (hne : m.metric_type ≠ v) :
    updateMetric st m =
      .value (st, .error (typeMismatchError m.metric_type
        (fullName st.config m.name))) ∧
    typeMismatchError m.metric_type (fullName st.config m.name) ≠
      notRegisteredError (fullName st.config m.name) :=
  ⟨updateMetric_mismatch st m v _ rfl hwf hv hne,
   mismatch_ne_notRegistered m.metric_type _⟩

/-- Witness for C3: `x` is registered as a counter and updated as a gauge. -/
theorem c3_update_type_mismatch_witness :
    WF exStateX ∧
    (updateMetric exStateX exGaugeX =
      .value (exStateX, .error (typeMismatchError exGaugeX.metric_type
        (fullName exStateX.config exGaugeX.name))) ∧
     typeMismatchError exGaugeX.metric_type (fullName exStateX.config exGaugeX.name) ≠
       notRegisteredError (fullName exStateX.config exGaugeX.name)) :=
  ⟨by decide,
   c3_update_type_mismatch exStateX exGaugeX .counter (by decide) (by decide)
     (by decide)⟩

/-- C4 counterexample: with `x` registered as a counter, processing a
gauge-typed measurement of `x` makes the first update fail with the
type-mismatch error, yet `process_metric` DOES attempt a registration (its
retry matches any `Err(_)`), and the error that surfaces for the item is the
registration\x27s duplicate-collector error, not the update\x27s mismatch
error. -/
theorem c4_counterexample :
    updateMetric exStateX exGaugeX =
      .value (exStateX, .error (typeMismatchError .gauge "app_metrics_server_x")) ∧
    processMetric exStateX exGaugeX =
      .value ⟨exStateX, .error alreadyRegError, true⟩ ∧
    alreadyRegError ≠ typeMismatchError .gauge "app_metrics_server_x" := by decide

/-- C4 (amended): the self-healing retry is triggered by ANY failure of the
first update attempt, not only by `NotRegistered`; after a type mismatch the
retry\x27s registration fails against the already-registered collector, the
registration error surfaces for the item, and the registry state is
unchanged. -/
theorem c4_retry_on_any_update_failure (st : RegistryState) (m : Metric) :
    (∀ o, processMetric st m = .value o →
      (o.registerAttempted = true ↔
        ∃ st1 e, updateMetric st m = .value (st1, .error e))) ∧
    (∀ v, WF st → instrumentVariant st (fullName st.config m.name) = some v →
      m.metric_type ≠ v →
      ∃ e, processMetric st m = .value ⟨st, .error e, true⟩) := by
  constructor
  · intro o ho
    cases hu : updateMetric st m with
    | panicked msg s =>
      rw [processMetric.eq_def, hu] at ho
      exact RunOutcome.noConfusion ho
    | value pr =>
      obtain ⟨st1, r⟩ := pr
      cases r with
      | ok u =>
        cases u
        rw [processMetric.eq_def, hu] at ho
        simp only at ho
        injection ho with ho1
        rw [← ho1]
        simp
      | error e =>
        cases hreg : registerMetric st1 m with
        | mk st2 r2 =>
          cases r2 with
          | error e2 =>
            rw [processMetric.eq_def, hu] at ho
            simp only [hreg] at ho
            injection ho with ho1
            rw [← ho1]
            exact iff_of_true rfl ⟨st1, e, rfl⟩
          | ok u2 =>
            cases u2
            cases huu : updateMetric st2 m with
            | panicked msg s =>
              rw [processMetric.eq_def, hu] at ho
              simp only [hreg, huu] at ho
              exact RunOutcome.noConfusion ho
            | value pr2 =>
              obtain ⟨st3, r3⟩ := pr2
              rw [processMetric.eq_def, hu] at ho
              simp only [hreg, huu] at ho
              injection ho with ho1
              rw [← ho1]
              exact iff_of_true rfl ⟨st1, e, rfl⟩
  · intro v hwf hv hne
    have hu := updateMetric_mismatch st m v _ rfl hwf hv hne
    obtain ⟨hr1, e2, hr2⟩ := registerMetric_mismatch st m v _ rfl hwf hv hne
    have hpair : registerMetric st m = (st, Except.error e2) := Prod.ext hr1 hr2
    exact ⟨e2, by rw [processMetric.eq_def, hu]; simp [hpair]⟩

/-- Witness for C4 (amended) at the concrete mismatch scenario. -/
theorem c4_retry_witness :
    WF exStateX ∧
    ∃ e, processMetric exStateX exGaugeX = .value ⟨exStateX, .error e, true⟩ :=
  ⟨by decide,
   (c4_retry_on_any_update_failure exStateX exGaugeX).2 .counter (by decide)
     (by decide) (by decide)⟩

/-- C5 counterexample: a batch of 3 measurements of which exactly one uses the
reserved label key `le` is NOT partially ingested with `processed=2`; the whole
batch is rejected up front by `batch.validate()?` in `ingest_metrics` with a
`ValidationError`, and the registry is untouched. -/
theorem c5_counterexample :
    ingestMetrics exEmptyState exBatchLe =
      .value (exEmptyState,
        .error (.validationError "\x27le\x27 is a reserved label name")) := by
  decide

/-- C5 (amended): any batch containing a measurement with the reserved label
key `le` is rejected as a whole by up-front validation with a
`ValidationError`; nothing is processed and the registry state is unchanged
(rather than `processed=2` / `partial_success` / one item error). -/
theorem c5_reserved_label_rejects_whole_batch (st : RegistryState)
    (b : MetricsBatch) (h : ∃ m ∈ b.metrics, (alookup m.labels "le").isSome) :
    ∃ msg, ingestMetrics st b = .value (st, .error (.validationError msg)) := by
  obtain ⟨m, hm, hle⟩ := h
  cases hv : b.validate with
  | ok u =>
    exfalso
    cases u
    have hmok := batchValidate_ok_items b hv m hm
    have hnone := metricValidate_no_le m hmok
    rw [hnone] at hle
    simp at hle
  | error e =>
    obtain ⟨msg, hmsg⟩ := batchValidate_error b e hv
    subst hmsg
    exact ⟨msg, by simp [ingestMetrics, hv]⟩

/-- Witness for C5 (amended) at the concrete 3-measurement batch. -/
theorem c5_reserved_label_witness :
    (∃ m ∈ exBatchLe.metrics, (alookup m.labels "le").isSome) ∧
    ∃ msg, ingestMetrics exEmptyState exBatchLe =
      .value (exEmptyState, .error (.validationError msg)) :=
  ⟨⟨exLeB, by decide, by decide⟩,
   c5_reserved_label_rejects_whole_batch exEmptyState exBatchLe
     ⟨exLeB, by decide, by decide⟩⟩

/-- C6 counterexample: the code\x27s per-measurement validation accepts the
metric name `é` (Rust\x27s `char::is_alphanumeric` is Unicode-wide), although
the name does not match the spec\x27s ASCII class `[A-Za-z0-9_:]+`. -/
theorem c6_counterexample :
    Metric.validate exAcuteMetric = .ok () ∧
    specNameAccepts exAcuteMetric.name = false := by decide

/-- C6 (amended): for measurements with valid help and labels and a name of
code points below 0x100 (where the embedding of `char::is_alphanumeric` is
exact), validation accepts the name iff it is non-empty and every character is
Unicode-alphanumeric, an underscore or a colon; on ASCII characters this
predicate coincides with the spec\x27s class `[A-Za-z0-9_:]`, but beyond ASCII
it is strictly larger. -/
theorem c6_name_validation (m : Metric)
    (hhelp : m.help ≠ "")
    (hlabels : ∀ p ∈ m.labels, p.1 ≠ "" ∧ p.1.data.all labelCharOk = true ∧
      p.1 ≠ "le" ∧ p.1 ≠ "quantile")
    (hlatin : ∀ c ∈ m.name.data, c.toNat < 0x100) :
    (Metric.validate m = .ok () ↔
      (m.name ≠ "" ∧ m.name.data.all nameCharOk = true)) ∧
    (∀ c ∈ m.name.data, c.toNat < 0x80 → nameCharOk c = specNameCharOk c) := by
  constructor
  · constructor
    · intro hv
      unfold Metric.validate at hv
      by_cases h1 : (m.name == "") = true
      · simp [h1] at hv
      · by_cases h2 : (!(m.name.data.all nameCharOk)) = true
        · simp [h1, h2] at hv
        · refine ⟨by simpa using h1, ?_⟩
          simpa using h2
    · rintro ⟨hn, hall⟩
      have b1 : (m.name == "") = false := beq_eq_false_iff_ne.mpr hn
      have bh : (m.help == "") = false := beq_eq_false_iff_ne.mpr hhelp
      simp [Metric.validate, b1, bh, hall, validateLabels_ok_of m.labels hlabels]
  · intro c _ hascii
    exact nameCharOk_ascii c hascii

/-- Witness for C6 (amended) at a concrete valid measurement. -/
theorem c6_name_validation_witness :
    exOkA.help ≠ "" ∧
    (Metric.validate exOkA = .ok () ↔
      (exOkA.name ≠ "" ∧ exOkA.name.data.all nameCharOk = true)) :=
  ⟨by decide,
   (c6_name_validation exOkA (by decide) (by decide) (by decide)).1⟩

/-- C7 counterexample: two measurements with the same name but different label
key sets (`\x7bb\x7d` versus `\x7bb, d\x7d`) whose values contain `,` and `=`
produce the same canonical key, so batch validation reports them as duplicates
although their label maps differ as sets. -/
theorem c7_counterexample :
    MetricsBatch.validate exBatchDup =
      .error (.validationError
        "Duplicate metric found: a with the same set of labels") ∧
    canonicalKey exDup1 = canonicalKey exDup2 ∧
    ("d" ∈ keysOf exDup2.labels ∧ ¬ "d" ∈ keysOf exDup1.labels) := by decide

/-- C7 (amended): for a batch passing the earlier checks, validation succeeds
iff the canonical key strings (name, colon, `k=v,` pairs sorted by key) are
pairwise distinct; equal (name, label list) implies an equal key, but the
converse fails when label values contain `=` or `,`, so distinct label sets can
be reported as duplicates. -/
theorem c7_duplicate_is_canonical_key_equality (b : MetricsBatch)
    (hs : b.source ≠ "") (hm : b.metrics ≠ [])
    (hv : ∀ m ∈ b.metrics, m.validate = .ok ()) :
    (b.validate = .ok () ↔ (b.metrics.map canonicalKey).Nodup) ∧
    (∀ m1 m2 : Metric, m1.name = m2.name → m1.labels = m2.labels →
      canonicalKey m1 = canonicalKey m2) := by
  constructor
  · have hb1 : (b.source == "") = false := beq_eq_false_iff_ne.mpr hs
    have hb2 : b.metrics.isEmpty = false := by
      cases hmm : b.metrics with
      | nil => exact absurd hmm hm
      | cons x xs => rfl
    have he : validateEach b.metrics = .ok () := (validateEach_ok_iff _).mpr hv
    simp only [MetricsBatch.validate, hb1, hb2, he, Bool.false_eq_true, if_false]
    rw [dupScan_ok_iff]
    simp
  · intro m1 m2 h1 h2
    unfold canonicalKey sortedLabelPairs
    rw [h1, h2]

/-- Witness for C7 (amended) at a concrete two-measurement batch. -/
theorem c7_duplicate_witness :
    exBatchTwo.source ≠ "" ∧
    (exBatchTwo.validate = .ok () ↔
      (exBatchTwo.metrics.map canonicalKey).Nodup) :=
  ⟨by decide,
   (c7_duplicate_is_canonical_key_equality exBatchTwo (by decide) (by decide)
     (by decide)).1⟩

/-- C8: `gather()` on a registry holding zero registered instruments returns
the non-empty placeholder comment line and never an error. -/
theorem c8_gather_empty_registry (st : RegistryState) (hwf : WF st)
    (hc : getMetricsCount st = 0) :
    gather st = .ok "# No metrics found in registry\n" ∧
    ("# No metrics found in registry\n" : String) ≠ "" ∧
    ∀ e, gather st ≠ .error e := by
  have hcn : st.counters = [] := by
    have := hc
    unfold getMetricsCount at this
    exact List.length_eq_zero.mp (by omega)
  have hgn : st.gauges = [] := by
    have := hc
    unfold getMetricsCount at this
    exact List.length_eq_zero.mp (by omega)
  have hhn : st.histograms = [] := by
    have := hc
    unfold getMetricsCount at this
    exact List.length_eq_zero.mp (by omega)
  obtain ⟨w1, _⟩ := hwf
  have hcols : st.collectorNames = [] := by
    rw [List.eq_nil_iff_forall_not_mem]
    intro n hn
    rcases w1 n hn with h | h | h
    · rw [hcn] at h; simp [keysOf] at h
    · rw [hgn] at h; simp [keysOf] at h
    · rw [hhn] at h; simp [keysOf] at h
  refine ⟨by simp [gather, hcols], by decide, ?_⟩
  intro e
  simp [gather, hcols]

/-- Witness for C8 at the freshly constructed registry. -/
theorem c8_gather_empty_witness :
    gather exEmptyState = .ok "# No metrics found in registry\n" :=
  (c8_gather_empty_registry exEmptyState (by decide) (by decide)).1

/-- C1: aggregation of per-measurement outcomes by `process_batch` on a
non-empty batch whose per-item loop completes: if nothing was processed the
whole call fails with the batch-level error ("AllFailed"); if some but not all
measurements succeeded the call returns `partial_success` carrying one error
string per failed measurement; if everything succeeded it returns `success`
with no errors and `processed` equal to the batch length. -/
theorem c1_process_batch_outcomes (st : RegistryState) (b : MetricsBatch)
    (hne : b.metrics ≠ [])
    (st1 : RegistryState) (p : Nat) (errs : List String)
    (hp : processItems st b.metrics = .value (st1, p, errs)) :
    (p = 0 →
      processBatch st b = .value (st1, .error (.metricsProcessingError
        "Failed to process any metrics in the batch"))) ∧
    (0 < p → p < b.metrics.length →
      processBatch st b = .value (st1, .ok ⟨p, "partial_success", errs⟩) ∧
      errs.length = b.metrics.length - p) ∧
    (p = b.metrics.length →
      processBatch st b = .value (st1, .ok ⟨b.metrics.length, "success", []⟩)) := by
  have hcount := processItems_count st b.metrics st1 p errs hp
  have hlen : b.metrics.length ≠ 0 := by
    cases hmm : b.metrics with
    | nil => exact absurd hmm hne
    | cons x xs => simp
  refine ⟨?_, ?_, ?_⟩
  · intro hp0
    subst hp0
    have herrne : errs ≠ [] := by
      intro hnil
      rw [hnil] at hcount
      simp at hcount
      exact hlen hcount.symm
    have hie : errs.isEmpty = false := by
      cases errs with
      | nil => exact absurd rfl herrne
      | cons x xs => rfl
    simp [processBatch, hp, hie]
  · intro hpos hlt
    have herrne : errs ≠ [] := by
      intro hnil
      rw [hnil] at hcount
      simp at hcount
      omega
    have hie : errs.isEmpty = false := by
      cases errs with
      | nil => exact absurd rfl herrne
      | cons x xs => rfl
    have hp0 : (p == 0) = false := by
      rw [beq_eq_false_iff_ne]
      omega
    constructor
    · simp [processBatch, hp, hie, hp0]
    · omega
  · intro hpe
    have herr0 : errs = [] := by
      apply List.length_eq_zero.mp
      omega
    subst herr0
    simp [processBatch, hp, hpe]

/-- The run of the per-item loop on the concrete single-measurement batch. -/
def exItemsRun : RunOutcome (RegistryState × Nat × List String) :=
  processItems exEmptyState exBatchOne.metrics

/-- The registry state produced by that run. -/
def exStateAfterBatch : RegistryState :=
  match exItemsRun with
  | .value (s, _, _) => s
  | .panicked _ s => s

/-- Witness for C1 at a concrete all-success single-measurement batch. -/
theorem c1_process_batch_witness :
    exBatchOne.metrics ≠ [] ∧
    processBatch exEmptyState exBatchOne =
      .value (exStateAfterBatch,
        .ok ⟨exBatchOne.metrics.length, "success", []⟩) :=
  ⟨by decide,
   (c1_process_batch_outcomes exEmptyState exBatchOne (by decide)
     exStateAfterBatch 1 [] rfl).2.2 (by decide)⟩

/-- C9: once the schema lookup has succeeded, `update_metric` builds the
label-value vector from the fixed schema: the vector always has exactly one
entry per schema key, incoming labels whose key is not in the schema do not
influence it, and a schema key with no incoming binding contributes the empty
string; for a registered counter whose label count matches the stored schema
(so that `with_label_values` does not panic) the value is folded into the
instrument\x27s data at exactly that vector. -/
theorem c9_label_vector_from_schema (st : RegistryState) (m : Metric)
    (keys : List String) (cv : CounterVec)
    (hk : alookup st.label_keys (fullName st.config m.name) = some keys)
    (hc : alookup st.counters (fullName st.config m.name) = some cv)
    (ht : m.metric_type = .counter)
    (harity : cv.labelNames.length = keys.length) :
    updateMetric st m =
      .value ({ st with counters := (ainsert st.counters
          (fullName st.config m.name)
          ({ cv with data := (ainsert cv.data (buildLabelValues keys m.labels)
              (((alookup cv.data (buildLabelValues keys m.labels)).getD 0) +
                m.value.value)) })) }, .ok ()) ∧
    (∀ labels2 : List (String × String),
      (buildLabelValues keys labels2).length = keys.length) ∧
    (∀ k w, ¬ k ∈ keys →
      buildLabelValues keys ((k, w) :: m.labels) = buildLabelValues keys m.labels) ∧
    (∀ i k, keys.get? i = some k → alookup m.labels k = none →
      (buildLabelValues keys m.labels).get? i = some "") := by
  refine ⟨?_, ?_, ?_, ?_⟩
  · have hb : (cv.labelNames.length ==
        (buildLabelValues keys m.labels).length) = true := by
      rw [buildLabelValues_length, harity]
      simp
    simp [updateMetric, hk, ht, hc, hb]
  · intro l2
    simp [buildLabelValues]
  · intro k w hkmem
    unfold buildLabelValues
    apply List.map_congr_left
    intro k2 hk2
    have hne : (k == k2) = false :=
      beq_eq_false_iff_ne.mpr (fun h => hkmem (h ▸ hk2))
    simp [alookup, hne]
  · intro i k hik hnone
    unfold buildLabelValues
    rw [List.get?_map, hik]
    simp [hnone]

/-- Witness for C9 at the registered counter `x` with schema `[a]`. -/
theorem c9_label_vector_witness :
    updateMetric exStateX exCounterX =
      .value ({ exStateX with counters := (ainsert exStateX.counters
          (fullName exStateX.config exCounterX.name)
          ({ exCounterVecX with data := (ainsert exCounterVecX.data
              (buildLabelValues ["a"] exCounterX.labels)
              (((alookup exCounterVecX.data
                  (buildLabelValues ["a"] exCounterX.labels)).getD 0) +
                exCounterX.value.value)) })) }, .ok ()) :=
  (c9_label_vector_from_schema exStateX exCounterX ["a"] exCounterVecX
    (by decide) (by decide) (by decide) (by decide)).1

/-- C10: on every completed run, `update_metric` never mutates the schema map,
the collector set, the configuration, or the key sets of the three instrument
maps; instruments under other names are untouched, the surviving instruments
keep their label names (and bucket ladders), and a failed update returns with
the state exactly unchanged; a panicking run (the `with_label_values`
cardinality unwrap) aborts with the state exactly unchanged as well. -/
theorem c10_update_metric_frame (st : RegistryState) (m : Metric) :
    (∀ st1 r, updateMetric st m = .value (st1, r) →
      st1.label_keys = st.label_keys ∧
      st1.collectorNames = st.collectorNames ∧
      st1.config = st.config ∧
      keysOf st1.counters = keysOf st.counters ∧
      keysOf st1.gauges = keysOf st.gauges ∧
      keysOf st1.histograms = keysOf st.histograms ∧
      (∀ n, n ≠ fullName st.config m.name →
        alookup st1.counters n = alookup st.counters n ∧
        alookup st1.gauges n = alookup st.gauges n ∧
        alookup st1.histograms n = alookup st.histograms n) ∧
      (∀ n cv0 cv', alookup st.counters n = some cv0 →
        alookup st1.counters n = some cv' →
        cv'.labelNames = cv0.labelNames) ∧
      (∀ n gv0 gv', alookup st.gauges n = some gv0 →
        alookup st1.gauges n = some gv' →
        gv'.labelNames = gv0.labelNames) ∧
      (∀ n hv0 hv', alookup st.histograms n = some hv0 →
        alookup st1.histograms n = some hv' →
        hv'.labelNames = hv0.labelNames ∧ hv'.buckets = hv0.buckets) ∧
      (∀ e, r = .error e → st1 = st)) ∧
    (∀ msg st1, updateMetric st m = .panicked msg st1 → st1 = st) := by
  refine ⟨?_, updateMetric_panicked_state st m⟩
  intro st1 r h
  rcases updateMetric_shape st m with ⟨e0, h0⟩ | h0 |
    ⟨keys, cv, hk, hc, har, h0⟩ | ⟨keys, gv, hk, hc, har, h0⟩ |
    ⟨keys, hv, hk, hc, har, h0⟩ <;> rw [h0] at h
  · injection h with h1
    injection h1 with hst hr
    subst hst
    refine ⟨rfl, rfl, rfl, rfl, rfl, rfl, ?_, ?_, ?_, ?_, ?_⟩
    · intro n hn
      exact ⟨rfl, rfl, rfl⟩
    · intro n cv0 cv' h0' h'
      rw [h0'] at h'
      injection h' with h2
      subst h2
      rfl
    · intro n gv0 gv' h0' h'
      rw [h0'] at h'
      injection h' with h2
      subst h2
      rfl
    · intro n hv0 hv' h0' h'
      rw [h0'] at h'
      injection h' with h2
      subst h2
      exact ⟨rfl, rfl⟩
    · intro e he
      rfl
  · exact RunOutcome.noConfusion h
  · injection h with h1
    injection h1 with hst hr
    subst hst
    subst hr
    have hmem : fullName st.config m.name ∈ keysOf st.counters :=
      (alookup_isSome_iff _ _).mp (by rw [hc]; rfl)
    refine ⟨rfl, rfl, rfl, keysOf_ainsert_of_mem _ _ _ hmem, rfl, rfl,
      ?_, ?_, ?_, ?_, ?_⟩
    · intro n hn
      exact ⟨alookup_ainsert_ne _ _ _ _ hn, rfl, rfl⟩
    · intro n cv0 cv' h0' h'
      dsimp only at h'
      by_cases hn : n = fullName st.config m.name
      · subst hn
        rw [alookup_ainsert_self] at h'
        injection h' with h2
        subst h2
        rw [hc] at h0'
        injection h0' with h3
        subst h3
        rfl
      · rw [alookup_ainsert_ne _ _ _ _ hn, h0'] at h'
        injection h' with h2
        subst h2
        rfl
    · intro n gv0 gv' h0' h'
      dsimp only at h'
      rw [h0'] at h'
      injection h' with h2
      subst h2
      rfl
    · intro n hv0 hv' h0' h'
      dsimp only at h'
      rw [h0'] at h'
      injection h' with h2
      subst h2
      exact ⟨rfl, rfl⟩
    · intro e he
      exact Except.noConfusion he
  · injection h with h1
    injection h1 with hst hr
    subst hst
    subst hr
    have hmem : fullName st.config m.name ∈ keysOf st.gauges :=
      (alookup_isSome_iff _ _).mp (by rw [hc]; rfl)
    refine ⟨rfl, rfl, rfl, rfl, keysOf_ainsert_of_mem _ _ _ hmem, rfl,
      ?_, ?_, ?_, ?_, ?_⟩
    · intro n hn
      exact ⟨rfl, alookup_ainsert_ne _ _ _ _ hn, rfl⟩
    · intro n cv0 cv' h0' h'
      dsimp only at h'
      rw [h0'] at h'
      injection h' with h2
      subst h2
      rfl
    · intro n gv0 gv' h0' h'
      dsimp only at h'
      by_cases hn : n = fullName st.config m.name
      · subst hn
        rw [alookup_ainsert_self] at h'
        injection h' with h2
        subst h2
        rw [hc] at h0'
        injection h0' with h3
        subst h3
        rfl
      · rw [alookup_ainsert_ne _ _ _ _ hn, h0'] at h'
        injection h' with h2
        subst h2
        rfl
    · intro n hv0 hv' h0' h'
      dsimp only at h'
      rw [h0'] at h'
      injection h' with h2
      subst h2
      exact ⟨rfl, rfl⟩
    · intro e he
      exact Except.noConfusion he
  · injection h with h1
    injection h1 with hst hr
    subst hst
    subst hr
    have hmem : fullName st.config m.name ∈ keysOf st.histograms :=
      (alookup_isSome_iff _ _).mp (by rw [hc]; rfl)
    refine ⟨rfl, rfl, rfl, rfl, rfl, keysOf_ainsert_of_mem _ _ _ hmem,
      ?_, ?_, ?_, ?_, ?_⟩
    · intro n hn
      exact ⟨rfl, rfl, alookup_ainsert_ne _ _ _ _ hn⟩
    · intro n cv0 cv' h0' h'
      dsimp only at h'
      rw [h0'] at h'
      injection h' with h2
      subst h2
      rfl
    · intro n gv0 gv' h0' h'
      dsimp only at h'
      rw [h0'] at h'
      injection h' with h2
      subst h2
      rfl
    · intro n hv0 hv' h0' h'
      dsimp only at h'
      by_cases hn : n = fullName st.config m.name
      · subst hn
        rw [alookup_ainsert_self] at h'
        injection h' with h2
        subst h2
        rw [hc] at h0'
        injection h0' with h3
        subst h3
        exact ⟨rfl, rfl⟩
      · rw [alookup_ainsert_ne _ _ _ _ hn, h0'] at h'
        injection h' with h2
        subst h2
        exact ⟨rfl, rfl⟩
    · intro e he
      exact Except.noConfusion he

/-- The completed run of `update_metric` on the registered counter. -/
def exUpdRun : RunOutcome (RegistryState × Except ServerError Unit) :=
  updateMetric exStateX exCounterX

/-- The registry state that run produces. -/
def exUpdState : RegistryState :=
  match exUpdRun with
  | .value (s, _) => s
  | .panicked _ s => s

/-- The per-item result that run produces. -/
def exUpdRes : Except ServerError Unit :=
  match exUpdRun with
  | .value (_, r) => r
  | .panicked _ _ => .ok ()

/-- Witness for C10: an update of the registered counter leaves an unrelated
name\x27s counters untouched. -/
theorem c10_update_metric_frame_witness :
    ("other" : String) ≠ fullName exStateX.config exCounterX.name ∧
    alookup exUpdState.counters "other" = alookup exStateX.counters "other" :=
  ⟨by decide,
   (((c10_update_metric_frame exStateX exCounterX).1 exUpdState exUpdRes
     rfl).2.2.2.2.2.2.1 "other" (by decide)).1⟩

end RI
